import Mathlib

/-!
# RaychelLogger — shallow embedding

A shallow embedding of the RaychelLogger C++ library (`src/Logger.cpp`,
`include/RaychelLogger/Logger.h`, `include/RaychelLogger/Helper.h`).

The global logger state (`currentLevel`, `minLogLevel`, `doColor`,
`outStream`/`logFile`, the recursive mutex with its `mtx_engaged` flag and
the `timePoints` registry) is modelled as an explicit `LoggerState` record
threaded through every operation.  The monotonic clock is passed in as an
explicit instant (`now : Int`, in nanoseconds, the resolution of
`high_resolution_clock`).  Filesystem outcomes of `initLogFile`
(`fs::create_directories`, `std::ofstream::is_open`) are passed in as
explicit parameters.  Written bytes accumulate in `bytes`; in addition every
`logConcurrent` call that passes the filtering gate records one `LogEvent`
(the emitted log line: its level, whether the first object carries the
`[LABEL] ` decoration, and the string parts concatenated into the line).

Logged objects are modelled as their already-formatted string
representations: every object reaching `print`/`printWithoutLabel` in the
C++ code has been turned into a `std::string` by `getRepStreamable` /
`getRepNonStreamable` first, and all objects relevant to the claims
(string literals, labels, integer counts) format to their literal text.
-/

namespace RaychelLogger

/-- `enum class LogLevel : size_t { debug = 0U, info, warn, error, critical, fatal, log }` -/
inductive LogLevel where
  | debug
  | info
  | warn
  | error
  | critical
  | fatal
  | log
deriving DecidableEq, Repr

/-- The underlying `size_t` value of a `LogLevel`; `lv1 < lv2` in the C++
code compares these ordinals. -/
def LogLevel.toNat : LogLevel → Nat
  | .debug => 0
  | .info => 1
  | .warn => 2
  | .error => 3
  | .critical => 4
  | .fatal => 5
  | .log => 6

/-- The active sink target: `outStream.rdbuf()` either points at
`std::cout`'s buffer (console) or at `logFile`'s buffer (file). -/
inductive OutTarget where
  | console
  | file
deriving DecidableEq, Repr

/-- One emitted log line: recorded whenever `_::logConcurrent` passes the
filtering gate.  `parts` are the string representations of the logged
objects in order; their concatenation is the text of the line. -/
structure LogEvent where
  level : LogLevel
  withLabel : Bool
  parts : List String
deriving DecidableEq, Repr

/-- The global mutable state of `namespace Logger` in `Logger.cpp`. -/
structure LoggerState where
  /-- `static LogLevel currentLevel = LogLevel::info` -/
  currentLevel : LogLevel
  /-- `static LogLevel minLogLevel = LogLevel::info` -/
  minLogLevel : LogLevel
  /-- `static bool doColor = true` -/
  doColor : Bool
  /-- `static std::array<std::string_view, 7> levelLabels = {...}` -/
  levelLabels : LogLevel → String
  /-- `static std::array<std::string_view, 7> cols = {...}` -/
  cols : LogLevel → String
  /-- which buffer `outStream.rdbuf()` currently points at -/
  outTarget : OutTarget
  /-- `logFile.is_open()` -/
  logFileOpen : Bool
  /-- `static std::unordered_map<std::string, timePoint_t> timePoints`;
  start instants in nanoseconds -/
  timePoints : List (String × Int)
  /-- how many times the current thread holds `static std::recursive_mutex mtx` -/
  lockDepth : Nat
  /-- `static bool mtx_engaged` -/
  mtxEngaged : Bool
  /-- all bytes written through `outStream` so far -/
  bytes : String
  /-- the log lines emitted so far (one per gate-passing `logConcurrent` call) -/
  emitted : List LogEvent

/-- `constexpr std::string_view reset_col = "\x1b[0m"` -/
def reset_col : String := "\x1b[0m"

/-- Default `levelLabels` array contents. -/
def defaultLabels : LogLevel → String
  | .debug => "DEBUG"
  | .info => "INFO"
  | .warn => "WARNING"
  | .error => "ERROR"
  | .critical => "CRITICAL"
  | .fatal => "FATAL"
  | .log => "OUT"

/-- Default `cols` array contents. -/
def defaultCols : LogLevel → String
  | .debug => "\x1b[36m"
  | .info => "\x1b[32m"
  | .warn => "\x1b[33m"
  | .error => "\x1b[31m"
  | .critical => "\x1b[1;31m"
  | .fatal => "\x1b[4;1;31m"
  | .log => "\x1b[34m"

/-- The process-start state of the logger globals. -/
def initialState : LoggerState where
  currentLevel := .info
  minLogLevel := .info
  doColor := true
  levelLabels := defaultLabels
  cols := defaultCols
  outTarget := .console
  logFileOpen := false
  timePoints := []
  lockDepth := 0
  mtxEngaged := false
  bytes := ""
  emitted := []

/-- `getLogLabel()` -/
def getLogLabel (s : LoggerState) : String :=
  s.levelLabels s.currentLevel

/-- `getLogColor()`: the color for the current level, or `""` when coloring
is disabled. -/
def getLogColor (s : LoggerState) : String :=
  if s.doColor then s.cols s.currentLevel else ""

/-- A raw `outStream.write(...)` of a chunk of bytes. -/
def write (s : LoggerState) (str : String) : LoggerState :=
  { s with bytes := s.bytes ++ str }

/-- `_::printWithoutLabel`: with color enabled writes
`<color><msg><reset>`, otherwise writes `<msg>`. -/
def printWithoutLabel (s : LoggerState) (msg : String) : LoggerState :=
  if s.doColor then
    write s (getLogColor s ++ msg ++ reset_col)
  else
    write s msg

/-- `_::print`: writes the `[LABEL] ` decoration (color-wrapped when color
is enabled) and then delegates the message body to `printWithoutLabel`. -/
def print (s : LoggerState) (msg : String) : LoggerState :=
  let s1 :=
    if s.doColor then
      write s (getLogColor s ++ "[" ++ getLogLabel s ++ "] " ++ reset_col)
    else
      write s ("[" ++ getLogLabel s ++ "] ")
  printWithoutLabel s1 msg

/-- `_::lockStream`: `mtx.lock(); mtx_engaged = true;` -/
def lockStream (s : LoggerState) : LoggerState :=
  { s with lockDepth := s.lockDepth + 1, mtxEngaged := true }

/-- `_::unlockStream`: `if (mtx_engaged) { mtx_engaged = false; mtx.unlock(); }` -/
def unlockStream (s : LoggerState) : LoggerState :=
  if s.mtxEngaged then
    { s with mtxEngaged := false, lockDepth := s.lockDepth - 1 }
  else
    s

/-- `_::logObj`: print one (already formatted) object, with or without the
label decoration. -/
def logObj (log_with_label : Bool) (rep : String) (s : LoggerState) : LoggerState :=
  if log_with_label then print s rep else printWithoutLabel s rep

/-- The post-gate body of `_::logConcurrent`: `setLogLevel(lv)`, print the
first object (with label iff `log_with_label`), fold-print the rest without
label, and record the emitted line. -/
def logBody (lv : LogLevel) (log_with_label : Bool) (obj : String)
    (args : List String) (s : LoggerState) : LoggerState :=
  let sa := { s with currentLevel := lv }
  let sb := logObj log_with_label obj sa
  let sc := args.foldl (fun acc a => logObj false a acc) sb
  { sc with emitted := sc.emitted ++ [⟨lv, log_with_label, obj :: args⟩] }

/-- `_::logConcurrent(lv, log_with_label, obj, args...)`: lock, filter
(`lv < requiredLevel() && lv != LogLevel::fatal` returns early), run the
body, and unlock via the `Finally` scope guard (also on the early
return). -/
def logConcurrent (lv : LogLevel) (log_with_label : Bool) (obj : String)
    (args : List String) (s : LoggerState) : LoggerState :=
  let s1 := lockStream s
  let s2 :=
    if lv.toNat < s1.minLogLevel.toNat ∧ lv ≠ LogLevel.fatal then
      s1
    else
      logBody lv log_with_label obj args s1
  unlockStream s2

/-- `Logger::debug(args...)` -/
def debug (obj : String) (args : List String) (s : LoggerState) : LoggerState :=
  logConcurrent .debug true obj args s

/-- `Logger::info(args...)` -/
def info (obj : String) (args : List String) (s : LoggerState) : LoggerState :=
  logConcurrent .info true obj args s

/-- `Logger::warn(args...)` -/
def warn (obj : String) (args : List String) (s : LoggerState) : LoggerState :=
  logConcurrent .warn true obj args s

/-- `Logger::error(args...)` -/
def error (obj : String) (args : List String) (s : LoggerState) : LoggerState :=
  logConcurrent .error true obj args s

/-- `Logger::critical(args...)` -/
def critical (obj : String) (args : List String) (s : LoggerState) : LoggerState :=
  logConcurrent .critical true obj args s

/-- `Logger::fatal(args...)` -/
def fatal (obj : String) (args : List String) (s : LoggerState) : LoggerState :=
  logConcurrent .fatal true obj args s

/-- `Logger::log(args...)` — the unconditional entry point: level
`LogLevel::log`, no label decoration. -/
def log (obj : String) (args : List String) (s : LoggerState) : LoggerState :=
  logConcurrent .log false obj args s

/-- `Logger::log(lv, args...)` — leveled entry point with label. -/
def logWithLevel (lv : LogLevel) (obj : String) (args : List String)
    (s : LoggerState) : LoggerState :=
  logConcurrent lv true obj args s

/-- `timePoints.find(label) != timePoints.end() ? some start : none` -/
def tpFind (label : String) (m : List (String × Int)) : Option Int :=
  m.lookup label

/-- Remove every binding of `label` (`timePoints.extract(label)`; keys in an
`unordered_map` are unique, so at most one binding exists). -/
def eraseKey (label : String) (m : List (String × Int)) : List (String × Int) :=
  m.filter (fun p => p.1 ≠ label)

/-- `timePoints.insert_or_assign(label, tp)` -/
def insertOrAssign (label : String) (tp : Int) (m : List (String × Int)) :
    List (String × Int) :=
  (label, tp) :: eraseKey label m

/-- `Logger::startTimer(label)`: lock, record `now` against `label`
(overwriting), return the label, unlock on scope exit. -/
def startTimer (label : String) (now : Int) (s : LoggerState) :
    String × LoggerState :=
  let s1 := lockStream s
  let s2 := { s1 with timePoints := insertOrAssign label now s1.timePoints }
  (label, unlockStream s2)

/-- `duration_cast<duration_t>` from nanoseconds to milliseconds:
integer division truncating toward zero. -/
def toMilliseconds (ns : Int) : Int :=
  ns.tdiv 1000000

/-- `Logger::endTimer(label)`: lock; on a hit, extract the entry and return
the elapsed time truncated to milliseconds; on a miss, report
`error("Label ", label, " not found!\n")` and return `duration_t(-1)`;
unlock via the scope guard. -/
def endTimer (label : String) (now : Int) (s : LoggerState) :
    Int × LoggerState :=
  let s1 := lockStream s
  match tpFind label s1.timePoints with
  | some startTime =>
      (toMilliseconds (now - startTime),
        unlockStream { s1 with timePoints := eraseKey label s1.timePoints })
  | none =>
      (-1, unlockStream (error "Label " [label, " not found!\n"] s1))

/-- `Logger::getTimer(label)`: like `endTimer` but takes no lock and leaves
the entry in place. -/
def getTimer (label : String) (now : Int) (s : LoggerState) :
    Int × LoggerState :=
  match tpFind label s.timePoints with
  | some startTime => (toMilliseconds (now - startTime), s)
  | none => (-1, error "Label " [label, " not found!\n"] s)

/-- `Logger::logDuration(label, _prefix = "", suffix = "ms\n")`: end the
timer; if the duration is not the sentinel, log
`info(prefix, dur.count(), suffix)` where an empty `_prefix` defaults to
`label + ": "`. -/
def logDuration (label : String) (pre : String) (suffix : String) (now : Int)
    (s : LoggerState) : LoggerState :=
  let r := endTimer label now s
  if r.1 ≠ -1 then
    let prefixStr := if pre = "" then label ++ ": " else pre
    info prefixStr [toString r.1, suffix] r.2
  else
    r.2

/-- `Logger::logDurationPersistent(label, _prefix = "", suffix = "ms\n")`:
same as `logDuration` but peeks via `getTimer`. -/
def logDurationPersistent (label : String) (pre : String) (suffix : String)
    (now : Int) (s : LoggerState) : LoggerState :=
  let r := getTimer label now s
  if r.1 ≠ -1 then
    let prefixStr := if pre = "" then label ++ ": " else pre
    info prefixStr [toString r.1, suffix] r.2
  else
    r.2

/-- `Logger::setMinimumLogLevel(lv)`: sets and returns the new minimum. -/
def setMinimumLogLevel (lv : LogLevel) (s : LoggerState) :
    LogLevel × LoggerState :=
  (lv, { s with minLogLevel := lv })

/-- `Logger::disableColor()` -/
def disableColor (s : LoggerState) : LoggerState :=
  { s with doColor := false }

/-- `Logger::enableColor()` -/
def enableColor (s : LoggerState) : LoggerState :=
  { s with doColor := true }

/-- `Logger::dumpLogFile()`: if a file is open, revert the target to the
console when the file's buffer is the active target, then close the file. -/
def dumpLogFile (s : LoggerState) : LoggerState :=
  if s.logFileOpen then
    let s1 := if s.outTarget = OutTarget.file then
        { s with outTarget := OutTarget.console }
      else s
    { s1 with logFileOpen := false }
  else
    s

/-- `Logger::initLogFile(directory, filename = "Log.log")`.
`createDirError` is the outcome of `fs::create_directories` (`some ec` =
failed with OS message `ec`, only consulted when `directory` is nonempty);
`openOk` is the outcome of `std::ofstream{filepath}.is_open()`.  On a
creation failure an error line is logged and the function returns; otherwise
any open file is dumped first, the new handle replaces the old one, and on a
successful open the target switches to the file and color is disabled. -/
def initLogFile (directory filename : String) (createDirError : Option String)
    (openOk : Bool) (s : LoggerState) : LoggerState :=
  match (if directory = "" then none else createDirError) with
  | some ec =>
      error "failed to open log file '" [directory, "/", filename, "': ", ec] s
  | none =>
      let s1 := if s.logFileOpen then dumpLogFile s else s
      let s2 := { s1 with logFileOpen := openOk }
      if openOk then
        disableColor { s2 with outTarget := OutTarget.file }
      else
        s2

/-! ## Helper lemmas -/

theorem LogLevel.toNat_le_six (lv : LogLevel) : lv.toNat ≤ 6 := by
  cases lv <;> simp [LogLevel.toNat]

theorem tpFind_insertOrAssign (label : String) (tp : Int)
    (m : List (String × Int)) :
    tpFind label (insertOrAssign label tp m) = some tp := by
  simp [tpFind, insertOrAssign, List.lookup]

theorem tpFind_eraseKey (label : String) (m : List (String × Int)) :
    tpFind label (eraseKey label m) = none := by
  induction m with
  | nil => rfl
  | cons p t ih =>
    obtain ⟨k, v⟩ := p
    by_cases h : k = label
    · simpa [eraseKey, List.filter_cons, h] using ih
    · have hk : (label == k) = false := beq_eq_false_iff_ne.mpr (Ne.symm h)
      simpa [eraseKey, List.filter_cons, h, tpFind, List.lookup, hk] using ih

theorem logObj_state (b : Bool) (r : String) (s : LoggerState) :
    (logObj b r s).emitted = s.emitted ∧
    (logObj b r s).timePoints = s.timePoints ∧
    (logObj b r s).minLogLevel = s.minLogLevel ∧
    (logObj b r s).currentLevel = s.currentLevel ∧
    (logObj b r s).doColor = s.doColor ∧
    (logObj b r s).outTarget = s.outTarget ∧
    (logObj b r s).logFileOpen = s.logFileOpen ∧
    (logObj b r s).lockDepth = s.lockDepth ∧
    (logObj b r s).mtxEngaged = s.mtxEngaged := by
  cases b <;> by_cases h : s.doColor <;>
    simp [logObj, print, printWithoutLabel, write, h]

theorem foldl_logObj_state (args : List String) (s : LoggerState) :
    ((args.foldl (fun acc a => logObj false a acc) s)).emitted = s.emitted ∧
    ((args.foldl (fun acc a => logObj false a acc) s)).timePoints = s.timePoints ∧
    ((args.foldl (fun acc a => logObj false a acc) s)).minLogLevel = s.minLogLevel ∧
    ((args.foldl (fun acc a => logObj false a acc) s)).currentLevel = s.currentLevel ∧
    ((args.foldl (fun acc a => logObj false a acc) s)).doColor = s.doColor ∧
    ((args.foldl (fun acc a => logObj false a acc) s)).outTarget = s.outTarget ∧
    ((args.foldl (fun acc a => logObj false a acc) s)).logFileOpen = s.logFileOpen ∧
    ((args.foldl (fun acc a => logObj false a acc) s)).lockDepth = s.lockDepth ∧
    ((args.foldl (fun acc a => logObj false a acc) s)).mtxEngaged = s.mtxEngaged := by
  induction args generalizing s with
  | nil => exact ⟨rfl, rfl, rfl, rfl, rfl, rfl, rfl, rfl, rfl⟩
  | cons a as ih =>
    obtain ⟨e1, t1, m1, c1, d1, o1, f1, l1, x1⟩ := logObj_state false a s
    obtain ⟨e2, t2, m2, c2, d2, o2, f2, l2, x2⟩ := ih (logObj false a s)
    exact ⟨e2.trans e1, t2.trans t1, m2.trans m1, c2.trans c1, d2.trans d1,
      o2.trans o1, f2.trans f1, l2.trans l1, x2.trans x1⟩

theorem logBody_state (lv : LogLevel) (b : Bool) (obj : String)
    (args : List String) (s : LoggerState) :
    (logBody lv b obj args s).emitted = s.emitted ++ [⟨lv, b, obj :: args⟩] ∧
    (logBody lv b obj args s).timePoints = s.timePoints ∧
    (logBody lv b obj args s).minLogLevel = s.minLogLevel ∧
    (logBody lv b obj args s).doColor = s.doColor ∧
    (logBody lv b obj args s).outTarget = s.outTarget ∧
    (logBody lv b obj args s).logFileOpen = s.logFileOpen ∧
    (logBody lv b obj args s).lockDepth = s.lockDepth ∧
    (logBody lv b obj args s).mtxEngaged = s.mtxEngaged := by
  obtain ⟨e1, t1, m1, c1, d1, o1, f1, l1, x1⟩ :=
    logObj_state b obj { s with currentLevel := lv }
  obtain ⟨e2, t2, m2, c2, d2, o2, f2, l2, x2⟩ :=
    foldl_logObj_state args (logObj b obj { s with currentLevel := lv })
  refine ⟨?_, ?_, ?_, ?_, ?_, ?_, ?_, ?_⟩ <;>
    simp [logBody, e2, e1, t2, t1, m2, m1, d2, d1, o2, o1, f2, f1, l2, l1,
      x2, x1]

theorem unlockStream_not_engaged (s : LoggerState)
    (h : s.mtxEngaged = false) : unlockStream s = s := by
  simp [unlockStream, h]

theorem unlockStream_engaged (s : LoggerState) (h : s.mtxEngaged = true) :
    unlockStream s
      = { s with mtxEngaged := false, lockDepth := s.lockDepth - 1 } := by
  simp [unlockStream, h]

/-- A filtered call is a complete no-op (given the lock was not marked
engaged on entry): lock and scope-guard unlock cancel exactly. -/
theorem logConcurrent_filtered (lv : LogLevel) (b : Bool) (obj : String)
    (args : List String) (s : LoggerState)
    (hgate : lv.toNat < s.minLogLevel.toNat ∧ lv ≠ LogLevel.fatal)
    (hs : s.mtxEngaged = false) :
    logConcurrent lv b obj args s = s := by
  cases s
  simp_all [logConcurrent, lockStream, unlockStream]

/-- A gate-passing call appends exactly one emitted line and leaves the
registry, configuration and sink state unchanged; the scope guard fully
releases the lock taken by this call. -/
theorem logConcurrent_pass (lv : LogLevel) (b : Bool) (obj : String)
    (args : List String) (s : LoggerState)
    (h : ¬(lv.toNat < s.minLogLevel.toNat ∧ lv ≠ LogLevel.fatal)) :
    (logConcurrent lv b obj args s).emitted
      = s.emitted ++ [⟨lv, b, obj :: args⟩] ∧
    (logConcurrent lv b obj args s).timePoints = s.timePoints ∧
    (logConcurrent lv b obj args s).minLogLevel = s.minLogLevel ∧
    (logConcurrent lv b obj args s).doColor = s.doColor ∧
    (logConcurrent lv b obj args s).outTarget = s.outTarget ∧
    (logConcurrent lv b obj args s).logFileOpen = s.logFileOpen ∧
    (logConcurrent lv b obj args s).lockDepth = s.lockDepth ∧
    (logConcurrent lv b obj args s).mtxEngaged = false := by
  obtain ⟨eb, tb, mb, db, ob, fb, lb, xb⟩ := logBody_state lv b obj args (lockStream s)
  have hx : (logBody lv b obj args (lockStream s)).mtxEngaged = true := xb
  have hun := unlockStream_engaged _ hx
  simp only [logConcurrent]
  rw [if_neg (by simpa [lockStream] using h)]
  rw [hun]
  refine ⟨?_, ?_, ?_, ?_, ?_, ?_, ?_, ?_⟩ <;>
    simp only [eb, tb, mb, db, ob, fb, lb] <;>
    simp [lockStream]

theorem startTimer_state (label : String) (now : Int) (s : LoggerState) :
    (startTimer label now s).2
      = { s with timePoints := insertOrAssign label now s.timePoints,
                 mtxEngaged := false } := by
  cases s
  simp [startTimer, lockStream, unlockStream]

theorem endTimer_hit (label : String) (now t0 : Int) (s : LoggerState)
    (hfind : tpFind label s.timePoints = some t0) :
    endTimer label now s
      = (toMilliseconds (now - t0),
        { s with timePoints := eraseKey label s.timePoints,
                 mtxEngaged := false }) := by
  have hfind1 : tpFind label (lockStream s).timePoints = some t0 := hfind
  cases s
  simp only [endTimer]
  rw [hfind1]
  simp [lockStream, unlockStream]

theorem endTimer_miss_val (label : String) (now : Int) (s : LoggerState)
    (hfind : tpFind label s.timePoints = none) :
    (endTimer label now s).1 = -1 := by
  have hfind1 : tpFind label (lockStream s).timePoints = none := hfind
  simp only [endTimer]
  rw [hfind1]

/-- On a miss with Error admitted by the minimum level, `endTimer` emits the
miss report and otherwise leaves registry and configuration alone; the
nested unlock leaves the mutex held once more than on entry. -/
theorem endTimer_miss_state (label : String) (now : Int) (s : LoggerState)
    (hfind : tpFind label s.timePoints = none)
    (hmin : s.minLogLevel.toNat ≤ LogLevel.error.toNat) :
    (endTimer label now s).2.emitted
      = s.emitted ++ [⟨LogLevel.error, true, ["Label ", label, " not found!\n"]⟩] ∧
    (endTimer label now s).2.timePoints = s.timePoints ∧
    (endTimer label now s).2.minLogLevel = s.minLogLevel ∧
    (endTimer label now s).2.lockDepth = s.lockDepth + 1 := by
  have hfind1 : tpFind label (lockStream s).timePoints = none := hfind
  have hgate : ¬(LogLevel.error.toNat < (lockStream s).minLogLevel.toNat ∧
      LogLevel.error ≠ LogLevel.fatal) := by
    intro hc
    exact absurd hc.1 (by simpa [lockStream] using Nat.not_lt.mpr hmin)
  obtain ⟨ep, tp, mp, _, _, _, lp, xp⟩ :=
    logConcurrent_pass LogLevel.error true "Label " [label, " not found!\n"]
      (lockStream s) hgate
  simp only [endTimer]
  rw [hfind1]
  have hnoop := unlockStream_not_engaged _ xp
  refine ⟨?_, ?_, ?_, ?_⟩ <;>
    simp only [error, hnoop, ep, tp, mp, lp] <;>
    simp [lockStream]

theorem getTimer_hit (label : String) (now t0 : Int) (s : LoggerState)
    (hfind : tpFind label s.timePoints = some t0) :
    getTimer label now s = (toMilliseconds (now - t0), s) := by
  simp only [getTimer]
  rw [hfind]

theorem getTimer_miss_state (label : String) (now : Int) (s : LoggerState)
    (hfind : tpFind label s.timePoints = none)
    (hmin : s.minLogLevel.toNat ≤ LogLevel.error.toNat) :
    (getTimer label now s).1 = -1 ∧
    (getTimer label now s).2.emitted
      = s.emitted ++ [⟨LogLevel.error, true, ["Label ", label, " not found!\n"]⟩] ∧
    (getTimer label now s).2.timePoints = s.timePoints ∧
    (getTimer label now s).2.minLogLevel = s.minLogLevel := by
  have hgate : ¬(LogLevel.error.toNat < s.minLogLevel.toNat ∧
      LogLevel.error ≠ LogLevel.fatal) := by
    intro hc
    exact absurd hc.1 (Nat.not_lt.mpr hmin)
  obtain ⟨ep, tp, mp, _, _, _, _, _⟩ :=
    logConcurrent_pass LogLevel.error true "Label " [label, " not found!\n"] s hgate
  simp only [getTimer]
  rw [hfind]
  exact ⟨rfl, ep, tp, mp⟩

/-! ## Claims -/

/-- C1, counterexample: the claim "if the minimum level M is strictly above
L, the leveled entry point for L produces no output" fails at L = fatal,
M = log: `log` is strictly above `fatal` in the ordinal order, yet the
fatal entry point still emits a line (the gate exempts `fatal`, not only
the unconditional level). -/
theorem C1_counterexample :
    LogLevel.toNat LogLevel.fatal < LogLevel.toNat LogLevel.log ∧
    (fatal "boom\n" [] { initialState with minLogLevel := LogLevel.log }).emitted
      ≠ [] := by
  exact ⟨by decide, by decide⟩

/-- C1, amended: for every severity L other than `fatal`, a minimum level
strictly above L makes the leveled call a complete no-op (no output, no
side effect), and a minimum level at most L emits exactly one line; the
`fatal` entry point and the unconditional `log` entry point emit one line
for every minimum level. -/
theorem C1_gate (L : LogLevel) (obj : String) (args : List String)
    (s : LoggerState) (hs : s.mtxEngaged = false) :
    (L.toNat < s.minLogLevel.toNat → L ≠ LogLevel.fatal →
      logWithLevel L obj args s = s) ∧
    (s.minLogLevel.toNat ≤ L.toNat →
      (logWithLevel L obj args s).emitted
        = s.emitted ++ [⟨L, true, obj :: args⟩]) ∧
    (fatal obj args s).emitted = s.emitted ++ [⟨LogLevel.fatal, true, obj :: args⟩] ∧
    (log obj args s).emitted = s.emitted ++ [⟨LogLevel.log, false, obj :: args⟩] := by
  refine ⟨?_, ?_, ?_, ?_⟩
  · intro hlt hne
    exact logConcurrent_filtered L true obj args s ⟨hlt, hne⟩ hs
  · intro hle
    exact (logConcurrent_pass L true obj args s
      (fun hc => absurd hc.1 (Nat.not_lt.mpr hle))).1
  · exact (logConcurrent_pass LogLevel.fatal true obj args s (fun hc => hc.2 rfl)).1
  · exact (logConcurrent_pass LogLevel.log false obj args s
      (fun hc => absurd hc.1 (Nat.not_lt.mpr (LogLevel.toNat_le_six s.minLogLevel)))).1

/-- Witness for C1_gate at L = debug on the initial state. -/
theorem C1_gate_witness :
    initialState.mtxEngaged = false ∧
    ((LogLevel.debug.toNat < initialState.minLogLevel.toNat →
        LogLevel.debug ≠ LogLevel.fatal →
        logWithLevel LogLevel.debug "x" [] initialState = initialState) ∧
      (initialState.minLogLevel.toNat ≤ LogLevel.debug.toNat →
        (logWithLevel LogLevel.debug "x" [] initialState).emitted
          = initialState.emitted ++ [⟨LogLevel.debug, true, ["x"]⟩]) ∧
      (fatal "x" [] initialState).emitted
        = initialState.emitted ++ [⟨LogLevel.fatal, true, ["x"]⟩] ∧
      (log "x" [] initialState).emitted
        = initialState.emitted ++ [⟨LogLevel.log, false, ["x"]⟩]) :=
  ⟨rfl, C1_gate LogLevel.debug "x" [] initialState rfl⟩

/-- C2: fatal messages cannot be suppressed: for every minimum level M set
through setMinimumLogLevel — including the unconditional level `log`
itself — the fatal entry point emits its line. -/
theorem C2_fatal_unsuppressed (M : LogLevel) (obj : String) (args : List String)
    (s : LoggerState) :
    (fatal obj args (setMinimumLogLevel M s).2).emitted
      = s.emitted ++ [⟨LogLevel.fatal, true, obj :: args⟩] :=
  (logConcurrent_pass LogLevel.fatal true obj args (setMinimumLogLevel M s).2
    (fun hc => hc.2 rfl)).1

/-- C7, code bug: plain logging and startTimer release the StreamLock
completely, but endTimer on a missing label returns with the recursive
mutex still held once: the nested error() report's scope guard clears
`mtx_engaged`, so the outer scope guard skips its unlock. -/
theorem C7_lock_leak :
    initialState.lockDepth = 0 ∧
    (warn "w\n" [] initialState).lockDepth = 0 ∧
    (startTimer "t" 0 initialState).2.lockDepth = 0 ∧
    (endTimer "t" 5 (startTimer "t" 0 initialState).2).2.lockDepth = 0 ∧
    (endTimer "x" 0 initialState).2.lockDepth = 1 := by
  exact ⟨rfl, rfl, rfl, rfl, rfl⟩

/-- C9, counterexample: the claim "the message text itself is not colorized
on the with-label path" is false: `warn("x")` with color enabled writes the
colorized decoration, a reset, and then the message body wrapped in the
same color again (not the plain body). -/
theorem C9_counterexample :
    (warn "x" [] initialState).bytes
      = "\x1b[33m[WARNING] \x1b[0m" ++ ("\x1b[33m" ++ "x" ++ "\x1b[0m") ∧
    (warn "x" [] initialState).bytes ≠ "\x1b[33m[WARNING] \x1b[0m" ++ "x" := by
  exact ⟨rfl, by decide⟩

/-- C9, amended: with color enabled, the with-label path emits the
colorized `[LABEL] ` decoration, a reset, and then the message body wrapped
in color exactly the way the label-less path wraps its entire payload (both
paths colorize the body). -/
theorem C9_color_paths (msg : String) (s : LoggerState) (h : s.doColor = true) :
    (print s msg).bytes
      = s.bytes
        ++ (s.cols s.currentLevel ++ "[" ++ s.levelLabels s.currentLevel ++ "] "
            ++ reset_col)
        ++ (s.cols s.currentLevel ++ msg ++ reset_col) ∧
    (printWithoutLabel s msg).bytes
      = s.bytes ++ (s.cols s.currentLevel ++ msg ++ reset_col) := by
  constructor <;>
    simp [print, printWithoutLabel, write, getLogColor, getLogLabel, h,
      String.append_assoc]

/-- Witness for C9_color_paths on the initial state. -/
theorem C9_color_paths_witness :
    initialState.doColor = true ∧
    ((print initialState "x").bytes
        = initialState.bytes
          ++ (initialState.cols initialState.currentLevel ++ "["
              ++ initialState.levelLabels initialState.currentLevel ++ "] "
              ++ reset_col)
          ++ (initialState.cols initialState.currentLevel ++ "x" ++ reset_col) ∧
      (printWithoutLabel initialState "x").bytes
        = initialState.bytes
          ++ (initialState.cols initialState.currentLevel ++ "x" ++ reset_col)) :=
  ⟨rfl, C9_color_paths "x" initialState rfl⟩

/-- C10: a successful initLogFile activates the file target and disables
coloring; dumpLogFile then reverts the target to the console while leaving
the color flag untouched (for every state, dumpLogFile preserves doColor),
so color stays off until enableColor is called explicitly. -/
theorem C10_file_color (d f : String) (s : LoggerState) :
    (initLogFile d f none true s).doColor = false ∧
    (initLogFile d f none true s).outTarget = OutTarget.file ∧
    (dumpLogFile (initLogFile d f none true s)).outTarget = OutTarget.console ∧
    (dumpLogFile (initLogFile d f none true s)).doColor = false ∧
    (∀ t : LoggerState, (dumpLogFile t).doColor = t.doColor) ∧
    (enableColor (dumpLogFile (initLogFile d f none true s))).doColor = true := by
  have hpres : ∀ t : LoggerState, (dumpLogFile t).doColor = t.doColor := by
    intro t
    simp only [dumpLogFile]
    split_ifs <;> rfl
  refine ⟨?_, ?_, ?_, ?_, hpres, ?_⟩ <;>
    by_cases hopen : s.logFileOpen <;>
    simp [initLogFile, dumpLogFile, disableColor, enableColor, hopen, ite_self]

/-- C3, counterexample: the claim "endTimer/getTimer on an absent label
produce exactly one Error-level log line" fails when the configured minimum
level is above Error: with minimum level critical the sentinel is returned
but no line is emitted (the miss report goes through the ordinary filtering
gate). -/
theorem C3_counterexample :
    (endTimer "x" 0 { initialState with minLogLevel := LogLevel.critical }).1 = -1 ∧
    (endTimer "x" 0 { initialState with minLogLevel := LogLevel.critical }).2.emitted
      = [] ∧
    (getTimer "x" 0 { initialState with minLogLevel := LogLevel.critical }).1 = -1 ∧
    (getTimer "x" 0 { initialState with minLogLevel := LogLevel.critical }).2.emitted
      = [] := by
  exact ⟨rfl, rfl, rfl, rfl⟩

/-- C3, amended: for every label absent from the registry, endTimer and
getTimer return the sentinel -1, and — provided the configured minimum
level admits Error-level lines — each produces exactly one Error-level log
line whose parts concatenate to "Label <s> not found!\n". -/
theorem C3_miss_reports (label : String) (now : Int) (s : LoggerState)
    (habs : tpFind label s.timePoints = none)
    (hmin : s.minLogLevel.toNat ≤ LogLevel.error.toNat) :
    (endTimer label now s).1 = -1 ∧
    (endTimer label now s).2.emitted
      = s.emitted ++ [⟨LogLevel.error, true, ["Label ", label, " not found!\n"]⟩] ∧
    (getTimer label now s).1 = -1 ∧
    (getTimer label now s).2.emitted
      = s.emitted ++ [⟨LogLevel.error, true, ["Label ", label, " not found!\n"]⟩] := by
  obtain ⟨ee, _, _, _⟩ := endTimer_miss_state label now s habs hmin
  obtain ⟨gv, ge, _, _⟩ := getTimer_miss_state label now s habs hmin
  exact ⟨endTimer_miss_val label now s habs, ee, gv, ge⟩

/-- Witness for C3_miss_reports at label "x" on the initial state. -/
theorem C3_miss_reports_witness :
    tpFind "x" initialState.timePoints = none ∧
    initialState.minLogLevel.toNat ≤ LogLevel.error.toNat ∧
    ((endTimer "x" 0 initialState).1 = -1 ∧
      (endTimer "x" 0 initialState).2.emitted
        = initialState.emitted
          ++ [⟨LogLevel.error, true, ["Label ", "x", " not found!\n"]⟩] ∧
      (getTimer "x" 0 initialState).1 = -1 ∧
      (getTimer "x" 0 initialState).2.emitted
        = initialState.emitted
          ++ [⟨LogLevel.error, true, ["Label ", "x", " not found!\n"]⟩]) :=
  ⟨rfl, by decide, C3_miss_reports "x" 0 initialState rfl (by decide)⟩

/-- C4: for every prior registry state, startTimer(s) immediately followed
by endTimer(s) (at a monotonically later instant) returns a duration ≥ 0
and removes s from the registry, so a second endTimer(s) reports a miss by
returning the sentinel -1. -/
theorem C4_start_end_consumes (label : String) (t1 t2 t3 : Int)
    (s : LoggerState) (h12 : t1 ≤ t2) :
    0 ≤ (endTimer label t2 (startTimer label t1 s).2).1 ∧
    tpFind label (endTimer label t2 (startTimer label t1 s).2).2.timePoints
      = none ∧
    (endTimer label t3 (endTimer label t2 (startTimer label t1 s).2).2).1 = -1 := by
  have hfind : tpFind label (startTimer label t1 s).2.timePoints = some t1 := by
    rw [startTimer_state]
    exact tpFind_insertOrAssign label t1 s.timePoints
  have hend := endTimer_hit label t2 t1 (startTimer label t1 s).2 hfind
  refine ⟨?_, ?_, ?_⟩
  · rw [hend]
    exact Int.tdiv_nonneg (by omega) (by norm_num)
  · rw [hend]
    exact tpFind_eraseKey label _
  · rw [hend]
    exact endTimer_miss_val label t3 _ (tpFind_eraseKey label _)

/-- Witness for C4_start_end_consumes at label "t", instants 0/0/0, on the
initial state. -/
theorem C4_start_end_consumes_witness :
    (0 : Int) ≤ 0 ∧
    (0 ≤ (endTimer "t" 0 (startTimer "t" 0 initialState).2).1 ∧
      tpFind "t" (endTimer "t" 0 (startTimer "t" 0 initialState).2).2.timePoints
        = none ∧
      (endTimer "t" 0 (endTimer "t" 0 (startTimer "t" 0 initialState).2).2).1
        = -1) :=
  ⟨le_refl 0, C4_start_end_consumes "t" 0 0 0 initialState (le_refl 0)⟩

/-- C5: for a started label, getTimer (peek) returns a duration ≥ 0 and
leaves the whole state — in particular the registry — unchanged, so a
subsequent endTimer still succeeds (returns a non-sentinel duration ≥ 0). -/
theorem C5_peek_nondestructive (label : String) (t1 t2 t3 : Int)
    (s : LoggerState) (h12 : t1 ≤ t2) (h13 : t1 ≤ t3) :
    0 ≤ (getTimer label t2 (startTimer label t1 s).2).1 ∧
    (getTimer label t2 (startTimer label t1 s).2).2 = (startTimer label t1 s).2 ∧
    0 ≤ (endTimer label t3 (getTimer label t2 (startTimer label t1 s).2).2).1 := by
  have hfind : tpFind label (startTimer label t1 s).2.timePoints = some t1 := by
    rw [startTimer_state]
    exact tpFind_insertOrAssign label t1 s.timePoints
  have hget := getTimer_hit label t2 t1 (startTimer label t1 s).2 hfind
  refine ⟨?_, ?_, ?_⟩
  · rw [hget]
    exact Int.tdiv_nonneg (by omega) (by norm_num)
  · rw [hget]
  · rw [hget, endTimer_hit label t3 t1 (startTimer label t1 s).2 hfind]
    exact Int.tdiv_nonneg (by omega) (by norm_num)

/-- Witness for C5_peek_nondestructive at label "t", instants 0/0/0, on the
initial state. -/
theorem C5_peek_nondestructive_witness :
    (0 : Int) ≤ 0 ∧
    (0 ≤ (getTimer "t" 0 (startTimer "t" 0 initialState).2).1 ∧
      (getTimer "t" 0 (startTimer "t" 0 initialState).2).2
        = (startTimer "t" 0 initialState).2 ∧
      0 ≤ (endTimer "t" 0 (getTimer "t" 0 (startTimer "t" 0 initialState).2).2).1) :=
  ⟨le_refl 0, C5_peek_nondestructive "t" 0 0 0 initialState (le_refl 0) (le_refl 0)⟩

/-- C6, counterexample: the claim "logDuration logs at a caller-chosen
level that defaults to the unconditional level" fails: the source's
logDuration has no level parameter and logs via info(...), so the emitted
line carries the Info level, which is not the unconditional level. -/
theorem C6_counterexample :
    (logDuration "t" "" "ms\n" 0 (startTimer "t" 0 initialState).2).emitted
      = [⟨LogLevel.info, true, ["t: ", "0", "ms\n"]⟩] ∧
    LogLevel.info ≠ LogLevel.log := by
  exact ⟨rfl, by decide⟩

/-- C6, amended: logDuration consumes via endTimer and
logDurationPersistent peeks via getTimer; when the duration is valid (and
the minimum level admits Info), each emits exactly one log line at the
fixed Info level whose parts concatenate to `<prefix><value><suffix>` with
the prefix defaulting to "<label>: "; when the lookup misses, only the
miss's own Error report is emitted and nothing further. -/
theorem C6_logDuration_info (label suffix l2 : String) (t1 t2 : Int)
    (s : LoggerState) (h12 : t1 ≤ t2)
    (hmin : s.minLogLevel.toNat ≤ LogLevel.info.toNat)
    (habs : tpFind l2 s.timePoints = none) :
    (logDuration label "" suffix t2 (startTimer label t1 s).2).emitted
      = s.emitted ++ [⟨LogLevel.info, true,
          [label ++ ": ", toString (toMilliseconds (t2 - t1)), suffix]⟩] ∧
    tpFind label
        (logDuration label "" suffix t2 (startTimer label t1 s).2).timePoints
      = none ∧
    (logDurationPersistent label "" suffix t2 (startTimer label t1 s).2).emitted
      = s.emitted ++ [⟨LogLevel.info, true,
          [label ++ ": ", toString (toMilliseconds (t2 - t1)), suffix]⟩] ∧
    tpFind label
        (logDurationPersistent label "" suffix t2 (startTimer label t1 s).2).timePoints
      = some t1 ∧
    (logDuration l2 "" suffix t2 s).emitted
      = s.emitted ++ [⟨LogLevel.error, true, ["Label ", l2, " not found!\n"]⟩] := by
  have hfind : tpFind label (startTimer label t1 s).2.timePoints = some t1 := by
    rw [startTimer_state]
    exact tpFind_insertOrAssign label t1 s.timePoints
  have hend := endTimer_hit label t2 t1 (startTimer label t1 s).2 hfind
  have hget := getTimer_hit label t2 t1 (startTimer label t1 s).2 hfind
  have hD : (0 : Int) ≤ toMilliseconds (t2 - t1) :=
    Int.tdiv_nonneg (by omega) (by norm_num)
  have hDne : toMilliseconds (t2 - t1) ≠ -1 := by omega
  have hpassE := logConcurrent_pass LogLevel.info true (label ++ ": ")
    [toString (toMilliseconds (t2 - t1)), suffix]
    { s with timePoints := eraseKey label (insertOrAssign label t1 s.timePoints),
             mtxEngaged := false }
    (fun hc => absurd hc.1 (Nat.not_lt.mpr hmin))
  have hpassG := logConcurrent_pass LogLevel.info true (label ++ ": ")
    [toString (toMilliseconds (t2 - t1)), suffix]
    { s with timePoints := insertOrAssign label t1 s.timePoints,
             mtxEngaged := false }
    (fun hc => absurd hc.1 (Nat.not_lt.mpr hmin))
  refine ⟨?_, ?_, ?_, ?_, ?_⟩
  · rw [startTimer_state] at hend ⊢
    simp only [logDuration, hend]
    rw [if_pos hDne]
    exact hpassE.1
  · rw [startTimer_state] at hend ⊢
    simp only [logDuration, hend]
    rw [if_pos hDne]
    have h2 : tpFind label (logConcurrent LogLevel.info true (label ++ ": ")
        [toString (toMilliseconds (t2 - t1)), suffix]
        { s with timePoints := eraseKey label (insertOrAssign label t1 s.timePoints),
                 mtxEngaged := false }).timePoints = none := by
      rw [hpassE.2.1]
      exact tpFind_eraseKey label _
    exact h2
  · rw [startTimer_state] at hget ⊢
    simp only [logDurationPersistent, hget]
    rw [if_pos hDne]
    exact hpassG.1
  · rw [startTimer_state] at hget ⊢
    simp only [logDurationPersistent, hget]
    rw [if_pos hDne]
    have h2 : tpFind label (logConcurrent LogLevel.info true (label ++ ": ")
        [toString (toMilliseconds (t2 - t1)), suffix]
        { s with timePoints := insertOrAssign label t1 s.timePoints,
                 mtxEngaged := false }).timePoints = some t1 := by
      rw [hpassG.2.1]
      exact tpFind_insertOrAssign label t1 s.timePoints
    exact h2
  · have hv := endTimer_miss_val l2 t2 s habs
    obtain ⟨he, _, _, _⟩ := endTimer_miss_state l2 t2 s habs
      (le_trans hmin (by decide))
    simp only [logDuration, hv]
    rw [if_neg (by simp)]
    exact he

/-- Witness for C6_logDuration_info at labels "t"/"u", instants 0/0, on the
initial state. -/
theorem C6_logDuration_info_witness :
    (0 : Int) ≤ 0 ∧
    initialState.minLogLevel.toNat ≤ LogLevel.info.toNat ∧
    tpFind "u" initialState.timePoints = none ∧
    ((logDuration "t" "" "ms\n" 0 (startTimer "t" 0 initialState).2).emitted
        = initialState.emitted ++ [⟨LogLevel.info, true,
            ["t" ++ ": ", toString (toMilliseconds ((0 : Int) - 0)), "ms\n"]⟩] ∧
      tpFind "t"
          (logDuration "t" "" "ms\n" 0 (startTimer "t" 0 initialState).2).timePoints
        = none ∧
      (logDurationPersistent "t" "" "ms\n" 0
          (startTimer "t" 0 initialState).2).emitted
        = initialState.emitted ++ [⟨LogLevel.info, true,
            ["t" ++ ": ", toString (toMilliseconds ((0 : Int) - 0)), "ms\n"]⟩] ∧
      tpFind "t"
          (logDurationPersistent "t" "" "ms\n" 0
            (startTimer "t" 0 initialState).2).timePoints
        = some 0 ∧
      (logDuration "u" "" "ms\n" 0 initialState).emitted
        = initialState.emitted
          ++ [⟨LogLevel.error, true, ["Label ", "u", " not found!\n"]⟩]) :=
  ⟨le_refl 0, by decide, rfl,
    C6_logDuration_info "t" "ms\n" "u" 0 0 initialState (le_refl 0) (by decide) rfl⟩

/-- C8, counterexample: the claim "on directory-creation failure initLogFile
emits an Error-level log line with path and OS message" fails when the
minimum level is above Error: with minimum level critical nothing is
emitted (though the sink state is indeed left unchanged). -/
theorem C8_counterexample :
    (initLogFile "dir" "Log.log" (some "disk full") true
        { initialState with minLogLevel := LogLevel.critical }).emitted = [] ∧
    (initLogFile "dir" "Log.log" (some "disk full") true
        { initialState with minLogLevel := LogLevel.critical }).outTarget
      = OutTarget.console := by
  exact ⟨rfl, rfl⟩

/-- C8, amended: when directory creation fails, initLogFile leaves the sink
target, the open-file state, the color flag and the timer registry
unchanged, and — provided the minimum level admits Error-level lines — it
emits exactly one Error-level line containing the attempted path
(directory and filename) and the OS error message. -/
theorem C8_dir_failure (d f ec : String) (openOk : Bool) (s : LoggerState)
    (hd : d ≠ "") (hmin : s.minLogLevel.toNat ≤ LogLevel.error.toNat) :
    (initLogFile d f (some ec) openOk s).outTarget = s.outTarget ∧
    (initLogFile d f (some ec) openOk s).logFileOpen = s.logFileOpen ∧
    (initLogFile d f (some ec) openOk s).doColor = s.doColor ∧
    (initLogFile d f (some ec) openOk s).timePoints = s.timePoints ∧
    (initLogFile d f (some ec) openOk s).emitted
      = s.emitted ++ [⟨LogLevel.error, true,
          ["failed to open log file '", d, "/", f, "': ", ec]⟩] := by
  have hred : initLogFile d f (some ec) openOk s
      = error "failed to open log file '" [d, "/", f, "': ", ec] s := by
    simp [initLogFile, hd]
  obtain ⟨ep, tp, mp, dp, op, fp, lp, xp⟩ :=
    logConcurrent_pass LogLevel.error true "failed to open log file '"
      [d, "/", f, "': ", ec] s (fun hc => absurd hc.1 (Nat.not_lt.mpr hmin))
  rw [hred]
  exact ⟨op, fp, dp, tp, ep⟩

/-- Witness for C8_dir_failure on the initial state. -/
theorem C8_dir_failure_witness :
    ("dir" : String) ≠ "" ∧
    initialState.minLogLevel.toNat ≤ LogLevel.error.toNat ∧
    ((initLogFile "dir" "Log.log" (some "disk full") true initialState).outTarget
        = initialState.outTarget ∧
      (initLogFile "dir" "Log.log" (some "disk full") true initialState).logFileOpen
        = initialState.logFileOpen ∧
      (initLogFile "dir" "Log.log" (some "disk full") true initialState).doColor
        = initialState.doColor ∧
      (initLogFile "dir" "Log.log" (some "disk full") true initialState).timePoints
        = initialState.timePoints ∧
      (initLogFile "dir" "Log.log" (some "disk full") true initialState).emitted
        = initialState.emitted ++ [⟨LogLevel.error, true,
            ["failed to open log file '", "dir", "/", "Log.log", "': ",
              "disk full"]⟩]) :=
  ⟨by decide, by decide,
    C8_dir_failure "dir" "Log.log" "disk full" true initialState (by decide)
      (by decide)⟩

end RaychelLogger
